import Mathlib

/-!
Verification development for a small multi-tenant blogging platform
(Express + Postgres: index.js, adminRoutes.js, middleware/admin.js).

The request handlers are shallowly embedded as pure Lean functions over an
explicit database state (three tables: users, blogs, contact_messages),
an explicit session value, and a list of flash messages enqueued during
the request.  External primitives are passed in as parameters: the bcrypt
comparison is a function argument, bcrypt hashing results and database
generated ids and timestamps are arguments of the corresponding routes.
-/

namespace Typely

/-! ## JavaScript parseInt and number-to-string, modelled exactly -/

/-- Whitespace characters skipped by JavaScript parseInt before parsing. -/
def isJsSpace (c : Char) : Bool :=
  c = ' ' || c = '\t' || c = '\n' || c = '\r' || c = '\x0b' || c = '\x0c'

/-- Decimal digit value of a character, if it is one (code points 48-57
are the digits zero through nine). -/
def decDigit (c : Char) : Option Nat :=
  let v := c.toNat
  if 48 ≤ v && v ≤ 57 then some (v - 48) else none

/-- Hexadecimal digit value of a character, if it is one (code points
97-102 are the lowercase letters a-f, 65-70 the uppercase A-F). -/
def hexDigit (c : Char) : Option Nat :=
  let v := c.toNat
  if 48 ≤ v && v ≤ 57 then some (v - 48)
  else if 97 ≤ v && v ≤ 102 then some (v - 87)
  else if 65 ≤ v && v ≤ 70 then some (v - 55)
  else none

/-- Accumulate the longest run of digits at the front of the list. -/
def digitsLoop (digit : Char → Option Nat) (base : Nat) (acc : Nat) :
    List Char → Nat
  | [] => acc
  | c :: cs =>
    match digit c with
    | none => acc
    | some d => digitsLoop digit base (acc * base + d) cs

/-- Value of the longest nonempty digit run at the front of the list,
none when the first character is not a digit (parseInt then yields NaN). -/
def digitRunVal (digit : Char → Option Nat) (base : Nat) :
    List Char → Option Nat
  | [] => none
  | c :: cs =>
    match digit c with
    | none => none
    | some d => some (digitsLoop digit base d cs)

/-- Strip one optional sign character, returning the sign and the rest. -/
def splitSign : List Char → Int × List Char
  | [] => (1, [])
  | c :: cs =>
    if c = '-' then (-1, cs)
    else if c = '+' then (1, cs)
    else (1, c :: cs)

/-- JavaScript parseInt(s) with no radix argument: skip leading whitespace,
one optional sign, detect a 0x or 0X prefix (radix 16) and otherwise use
radix 10, then read the longest digit run; none models NaN.
(The model is exact over mathematical integers; the double rounding that
JavaScript applies to runs longer than 15 digits is not modelled, and no
claim here depends on such inputs.) -/
def parseIntStr (s : String) : Option Int :=
  let cs0 := s.data.dropWhile isJsSpace
  let sc := splitSign cs0
  let body : Option Nat :=
    match sc.2 with
    | c0 :: c1 :: rest =>
      if c0 = '0' && (c1 = 'x' || c1 = 'X') then digitRunVal hexDigit 16 rest
      else digitRunVal decDigit 10 (c0 :: c1 :: rest)
    | cs => digitRunVal decDigit 10 cs
  body.map (fun v => sc.1 * (v : Int))

/-- A JavaScript number that is either NaN (none) or an integer value:
the codomain of parseInt on route parameters. -/
abbrev JsNum := Option Int

/-- Decimal digit character for a value below ten. -/
def decDigitChar : Nat → Char
  | 0 => '0' | 1 => '1' | 2 => '2' | 3 => '3' | 4 => '4'
  | 5 => '5' | 6 => '6' | 7 => '7' | 8 => '8' | _ => '9'

/-- Decimal rendering worker, structurally recursive on a fuel counter
that always suffices. -/
def natToDecCharsAux : Nat → Nat → List Char
  | 0, _ => []
  | fuel + 1, n =>
    if n < 10 then [decDigitChar n]
    else natToDecCharsAux fuel (n / 10) ++ [decDigitChar (n % 10)]

/-- Decimal digit characters of a natural number, most significant first:
models the JavaScript String() rendering of a nonnegative integer. -/
def natToDecChars (n : Nat) : List Char := natToDecCharsAux (n + 1) n

/-- JavaScript String() applied to a JsNum: NaN renders as "NaN",
integers in decimal with a leading minus sign when negative. -/
def jsNumToString : JsNum → String
  | none => "NaN"
  | some n =>
    if n < 0 then String.mk ('-' :: natToDecChars (-n).toNat)
    else String.mk (natToDecChars n.toNat)

/-! ## Postgres integer input casting

The admin routes pass the raw :id path parameter straight to a query
against an integer column; the server casts the text, accepting optional
surrounding whitespace, an optional sign and a nonempty all-decimal digit
run, and raising an error (surfacing as the 500 catch branch) otherwise.
The int4 range check is not modelled; no claim depends on overflow. -/

/-- Postgres cast of a text literal to an integer column value. -/
def pgIntCast (s : String) : Option Int :=
  let cs := ((s.data.dropWhile isJsSpace).reverse.dropWhile isJsSpace).reverse
  let sc := splitSign cs
  if sc.2 ≠ [] && sc.2.all (fun c => (decDigit c).isSome) then
    some (sc.1 * (digitsLoop decDigit 10 0 sc.2 : Int))
  else none

/-! ## Data model: the three tables, the session identity, the database -/

/-- Row of the users table. -/
structure User where
  id : Int
  username : String
  email : String
  password : String
  role : String
deriving Repr, DecidableEq

/-- Row of the blogs table. -/
structure Blog where
  id : Int
  user_id : Int
  title : String
  content : String
  status : String
  created_at : Int
deriving Repr, DecidableEq

/-- Row of the contact_messages table. -/
structure ContactMessage where
  id : Int
  name : String
  email : String
  message : String
  created_at : Int
deriving Repr, DecidableEq

/-- The identity record bound to a session.  The public login and signup
routes store only id and username, so email and role are optional fields;
the admin login route stores all four. -/
structure Identity where
  id : Int
  username : String
  email : Option String
  role : Option String
deriving Repr, DecidableEq

/-- The database: three tables, each a list of rows. -/
structure DB where
  users : List User
  blogs : List Blog
  contact_messages : List ContactMessage
deriving Repr, DecidableEq

/-- A blog row joined with the author username
(SELECT blogs.*, users.username FROM blogs JOIN users ...). -/
structure BlogWithAuthor where
  blog : Blog
  username : String
deriving Repr, DecidableEq

/-- Inner join of blogs with users on blogs.user_id = users.id. -/
def joinBlogsUsers (db : DB) : List BlogWithAuthor :=
  (db.blogs.map (fun b =>
    (db.users.filter (fun u => u.id = b.user_id)).map
      (fun u => BlogWithAuthor.mk b u.username))).flatten

/-- Insert into a list sorted descending by an integer key. -/
def insertByKeyDesc (key : α → Int) (x : α) : List α → List α
  | [] => [x]
  | y :: ys =>
    if key y ≤ key x then x :: y :: ys else y :: insertByKeyDesc key x ys

/-- ORDER BY key DESC, as insertion sort. -/
def sortByKeyDesc (key : α → Int) : List α → List α
  | [] => []
  | x :: xs => insertByKeyDesc key x (sortByKeyDesc key xs)

/-! ## Responses and handler results -/

/-- JSON body returned by the POST /contact handler. -/
structure ContactJson where
  success : Bool
  message : Option String
  error : Option String
deriving Repr, DecidableEq

/-- Template data of each rendered view, restricted to the locals that the
claims are about (purely presentational locals such as hideNavbar and the
drained flash lists handed to the layout are not modelled). -/
inductive RenderData where
  | page (title : String)
  | message (text : String)
  | pgError
  | blogList (blogs : List BlogWithAuthor) (title : String)
  | myBlogs (blogs : List Blog)
  | oneBlogJoined (b : BlogWithAuthor) (title : String)
  | oneBlog (b : Blog)
  | adminLogin (error : Option String)
  | adminDashboard (user : Option Identity) (users : List User)
      (blogs : List BlogWithAuthor)
  | adminMessages (user : Option Identity) (messages : List ContactMessage)
  | adminUsers (user : Option Identity) (users : List User)
  | adminBlogs (user : Option Identity) (blogs : List BlogWithAuthor)
  | adminEditBlog (user : Option Identity) (blog : Blog)
deriving Repr, DecidableEq

/-- An HTTP response: a rendered view with a status code, a redirect
(302), a JSON body, or a plain text send. -/
inductive Response where
  | render (status : Nat) (view : String) (data : RenderData)
  | redirect (path : String)
  | json (status : Nat) (body : ContactJson)
  | sendText (status : Nat) (body : String)
deriving Repr, DecidableEq

/-- HTTP status code of a response. -/
def Response.statusCode : Response → Nat
  | .render s _ _ => s
  | .redirect _ => 302
  | .json s _ => s
  | .sendText s _ => s

/-- Result of handling one request: the response, the database afterwards,
the session afterwards, and the flash messages enqueued (category, text)
in order during this request. -/
structure HandlerResult where
  response : Response
  db : DB
  session : Option Identity
  flashes : List (String × String)
deriving Repr, DecidableEq

/-! ## Authorization gates -/

/-- checkAuth middleware: proceed when a session user is bound, otherwise
flash an error and redirect to /login. -/
def checkAuth (db : DB) (sess : Option Identity)
    (handler : Identity → HandlerResult) : HandlerResult :=
  match sess with
  | some u => handler u
  | none =>
    ⟨.redirect "/login", db, none, [("error", "Please login to continue")]⟩

/-- isAdmin middleware: proceed when a session user is bound and its role
field equals admin, otherwise redirect to /admin/login with no flash. -/
def isAdmin (db : DB) (sess : Option Identity)
    (handler : Identity → HandlerResult) : HandlerResult :=
  match sess with
  | some u =>
    if u.role = some "admin" then handler u
    else ⟨.redirect "/admin/login", db, sess, []⟩
  | none => ⟨.redirect "/admin/login", db, sess, []⟩

/-! ## Public route handlers (index.js) -/

/-- GET / : list all blogs joined with author, newest first. -/
def getHome (db : DB) (sess : Option Identity) : HandlerResult :=
  let rows := sortByKeyDesc (fun r => r.blog.created_at) (joinBlogsUsers db)
  ⟨.render 200 "index" (.blogList rows "Home"), db, sess, []⟩

/-- GET /signup : redirect home when already authenticated, else render. -/
def getSignup (db : DB) (sess : Option Identity) : HandlerResult :=
  match sess with
  | some _ => ⟨.redirect "/", db, sess, []⟩
  | none => ⟨.render 200 "signup" (.page "Signup"), db, sess, []⟩

/-- POST /signup : validate fields, check uniqueness, insert the user with
the hashed password (hashed and the generated id are parameters standing
for the bcrypt call and the RETURNING clause), bind a session holding only
id and username, flash success and redirect home. -/
def postSignup (db : DB) (sess : Option Identity)
    (username email password hashed : String) (freshId : Int) :
    HandlerResult :=
  if username = "" || email = "" || password = "" then
    ⟨.redirect "/signup", db, sess, [("error", "All fields are required")]⟩
  else if password.length < 6 then
    ⟨.redirect "/signup", db, sess,
      [("error", "Password must be at least 6 characters long")]⟩
  else
    let existing :=
      db.users.filter (fun u => u.email = email || u.username = username)
    if existing.length > 0 then
      ⟨.redirect "/signup", db, sess,
        [("error", "Email or username already exists")]⟩
    else
      ⟨.redirect "/",
       { db with users :=
          db.users ++ [User.mk freshId username email hashed "user"] },
       some (Identity.mk freshId username none none),
       [("success", "Signup successful! Welcome!")]⟩

/-- GET /login : redirect home when already authenticated, else render. -/
def getLogin (db : DB) (sess : Option Identity) : HandlerResult :=
  match sess with
  | some _ => ⟨.redirect "/", db, sess, []⟩
  | none => ⟨.render 200 "login" (.page "Login"), db, sess, []⟩

/-- POST /login : validate fields, look the user up by email, verify the
password hash (verify is the bcrypt comparison), bind a session holding
only id and username, flash a welcome and redirect home. -/
def postLogin (db : DB) (sess : Option Identity) (email password : String)
    (verify : String → String → Bool) : HandlerResult :=
  if email = "" || password = "" then
    ⟨.redirect "/login", db, sess, [("error", "All fields are required")]⟩
  else
    match db.users.filter (fun u => u.email = email) with
    | [] => ⟨.redirect "/login", db, sess, [("error", "User not found")]⟩
    | u :: _ =>
      if ¬ verify password u.password then
        ⟨.redirect "/login", db, sess, [("error", "Incorrect password")]⟩
      else
        ⟨.redirect "/", db, some (Identity.mk u.id u.username none none),
         [("success", "Welcome back, " ++ u.username ++ "!")]⟩

/-- GET /logout : destroy the session and redirect to /login. -/
def getLogout (db : DB) (_sess : Option Identity) : HandlerResult :=
  ⟨.redirect "/login", db, none, []⟩

/-- GET /forgot-password : render the form. -/
def getForgotPassword (db : DB) (sess : Option Identity) : HandlerResult :=
  ⟨.render 200 "forgot-password" (.page "Forgot Password"), db, sess, []⟩

/-- POST /forgot-password : validate fields, look the user up by email,
overwrite the password hash unconditionally, flash and redirect. -/
def postForgotPassword (db : DB) (sess : Option Identity)
    (email newPassword hashed : String) : HandlerResult :=
  if email = "" || newPassword = "" then
    ⟨.redirect "/forgot-password", db, sess,
      [("error", "All fields are required")]⟩
  else if (db.users.filter (fun u => u.email = email)).length = 0 then
    ⟨.redirect "/forgot-password", db, sess,
      [("error", "No account found with this email")]⟩
  else
    ⟨.redirect "/login",
     { db with users := db.users.map (fun u =>
        if u.email = email then { u with password := hashed } else u) },
     sess,
     [("success", "Password reset successfully. You can now login.")]⟩

/-- POST /contact : validate fields, insert the message (insertOk stands
for the insert succeeding; freshId and now for the generated columns) and
answer with JSON; both failure modes answer 200 with a success flag. -/
def postContact (db : DB) (sess : Option Identity)
    (name email message : String) (freshId now : Int) (insertOk : Bool) :
    HandlerResult :=
  if name = "" || email = "" || message = "" then
    ⟨.json 200 (ContactJson.mk false none (some "All fields are required")),
     db, sess, []⟩
  else if insertOk then
    ⟨.json 200 (ContactJson.mk true (some "Message sent successfully!") none),
     { db with contact_messages :=
        db.contact_messages ++ [ContactMessage.mk freshId name email message now] },
     sess, []⟩
  else
    ⟨.json 200
      (ContactJson.mk false none (some "Server error while sending message")),
     db, sess, []⟩

/-- GET /dashboard (behind checkAuth): list the session user blogs,
newest first. -/
def getDashboard (db : DB) (u : Identity) : HandlerResult :=
  let rows := sortByKeyDesc Blog.created_at
    (db.blogs.filter (fun b => b.user_id = u.id))
  ⟨.render 200 "dashboard" (.myBlogs rows), db, some u, []⟩

/-- GET /create (behind checkAuth): render the form. -/
def getCreate (db : DB) (u : Identity) : HandlerResult :=
  ⟨.render 200 "create" (.page "Create Blog"), db, some u, []⟩

/-- POST /create (behind checkAuth): validate fields and insert a blog
owned by the session user (freshId and now stand for the generated
columns; status takes the schema default). -/
def postCreate (db : DB) (u : Identity) (title content : String)
    (freshId now : Int) : HandlerResult :=
  if title = "" || content = "" then
    ⟨.redirect "/create", db, some u, [("error", "All fields are required")]⟩
  else
    ⟨.redirect "/dashboard",
     { db with blogs :=
        db.blogs ++ [Blog.mk freshId u.id title content "pending" now] },
     some u, [("success", "Blog created successfully")]⟩

/-- validateId helper: (id) => Number.isInteger(parseInt(id)), on the raw
string it receives when applied to a route parameter directly. -/
def validateId (s : String) : Bool := (parseIntStr s).isSome

/-- validateId as the route handlers actually invoke it: on the number
that parseInt already produced, so Number.isInteger(parseInt(String(x))). -/
def validateIdNum (x : JsNum) : Bool := validateId (jsNumToString x)

/-- GET /view/:id : parse the id, 400 when invalid, else query the joined
blog row by id, 404 when absent, else render it. -/
def getViewBlog (db : DB) (sess : Option Identity) (idStr : String) :
    HandlerResult :=
  let id := parseIntStr idStr
  if ¬ validateIdNum id then
    ⟨.render 400 "error" (.message "Invalid blog ID"), db, sess, []⟩
  else
    match (joinBlogsUsers db).filter (fun r => some r.blog.id = id) with
    | [] => ⟨.render 404 "404" (.message "Blog not found"), db, sess, []⟩
    | r :: _ =>
      ⟨.render 200 "viewblog" (.oneBlogJoined r r.blog.title), db, sess, []⟩

/-- GET /edit/:id (behind checkAuth): parse the id, 400 when invalid, else
query the blog by id and owner, 403 when no row, else render the form. -/
def getEditBlog (db : DB) (u : Identity) (idStr : String) : HandlerResult :=
  let id := parseIntStr idStr
  if ¬ validateIdNum id then
    ⟨.render 400 "error" (.message "Invalid blog ID"), db, some u, []⟩
  else
    match db.blogs.filter
        (fun b => decide (some b.id = id) && decide (b.user_id = u.id)) with
    | [] => ⟨.render 403 "error" (.message "Not authorized"), db, some u, []⟩
    | b :: _ => ⟨.render 200 "edit" (.oneBlog b), db, some u, []⟩

/-- POST /edit/:id (behind checkAuth): no id validation; empty fields
flash and redirect back to the form (the parsed number is interpolated
into the path, so NaN renders into it); otherwise the update query runs,
restricted to the row owned by the session user.  When the id parsed to
NaN the query parameter is rejected by the integer column cast, the
thrown error reaches the outer error middleware and a 500 error page is
rendered. -/
def postEditBlog (db : DB) (u : Identity) (idStr title content : String) :
    HandlerResult :=
  let id := parseIntStr idStr
  if title = "" || content = "" then
    ⟨.redirect ("/edit/" ++ jsNumToString id), db, some u,
     [("error", "All fields are required")]⟩
  else
    match id with
    | none => ⟨.render 500 "error" .pgError, db, some u, []⟩
    | some n =>
      ⟨.redirect "/dashboard",
       { db with blogs := db.blogs.map (fun b =>
          if b.id = n ∧ b.user_id = u.id then
            { b with title := title, content := content }
          else b) },
       some u, [("success", "Blog updated successfully")]⟩

/-- POST /delete/:id (behind checkAuth): parse the id, 400 when invalid,
else delete the row matching the id and the session user in the query
predicate, then flash success and redirect unconditionally. -/
def postDeleteBlog (db : DB) (u : Identity) (idStr : String) :
    HandlerResult :=
  let id := parseIntStr idStr
  if ¬ validateIdNum id then
    ⟨.render 400 "error" (.message "Invalid blog ID"), db, some u, []⟩
  else
    ⟨.redirect "/dashboard",
     { db with blogs := db.blogs.filter (fun b =>
        ¬ (some b.id = id ∧ b.user_id = u.id)) },
     some u, [("success", "Blog deleted successfully")]⟩

/-- GET /contact : static render. -/
def getContactPage (db : DB) (sess : Option Identity) : HandlerResult :=
  ⟨.render 200 "contact" (.page "Contact"), db, sess, []⟩

/-- GET /about : static render. -/
def getAbout (db : DB) (sess : Option Identity) : HandlerResult :=
  ⟨.render 200 "about" (.page "About"), db, sess, []⟩

/-! ## Admin route handlers (adminRoutes.js)

The admin routes pass the raw :id parameter straight to the query, so a
non-castable id makes the query throw and the catch branch answers a
plain 500 Server error. -/

/-- GET /admin/login : render the admin login form. -/
def getAdminLogin (db : DB) (sess : Option Identity) : HandlerResult :=
  ⟨.render 200 "admin/admin-login" (.adminLogin none), db, sess, []⟩

/-- POST /admin/login : look up by email restricted to role admin, verify
the hash, and on success bind a session holding the full identity
including email and role; both failure modes re-render the form with the
same error text and no flash. -/
def postAdminLogin (db : DB) (sess : Option Identity)
    (email password : String) (verify : String → String → Bool) :
    HandlerResult :=
  match db.users.filter (fun u => u.email = email && u.role = "admin") with
  | [] =>
    ⟨.render 200 "admin/admin-login"
      (.adminLogin (some "Invalid email or password")), db, sess, []⟩
  | a :: _ =>
    if ¬ verify password a.password then
      ⟨.render 200 "admin/admin-login"
        (.adminLogin (some "Invalid email or password")), db, sess, []⟩
    else
      ⟨.redirect "/admin", db,
       some (Identity.mk a.id a.username (some a.email) (some a.role)), []⟩

/-- GET /admin/logout (behind isAdmin): destroy the session. -/
def getAdminLogout (db : DB) (_u : Identity) : HandlerResult :=
  ⟨.redirect "/admin/login", db, none, []⟩

/-- GET /admin (behind isAdmin): all users (id descending) and all blogs
with author (newest first). -/
def getAdminDashboard (db : DB) (u : Identity) : HandlerResult :=
  let usersRows := sortByKeyDesc User.id db.users
  let blogsRows :=
    sortByKeyDesc (fun r => r.blog.created_at) (joinBlogsUsers db)
  ⟨.render 200 "admin/admin-dashboard"
    (.adminDashboard (some u) usersRows blogsRows), db, some u, []⟩

/-- GET /admin/messages (behind isAdmin): all contact messages, newest
first. -/
def getAdminMessages (db : DB) (u : Identity) : HandlerResult :=
  let rows := sortByKeyDesc ContactMessage.created_at db.contact_messages
  ⟨.render 200 "admin/admin-messages" (.adminMessages (some u) rows),
   db, some u, []⟩

/-- GET /admin/users (behind isAdmin): all users, id descending. -/
def getAdminUsers (db : DB) (u : Identity) : HandlerResult :=
  ⟨.render 200 "admin/admin-users"
    (.adminUsers (some u) (sortByKeyDesc User.id db.users)), db, some u, []⟩

/-- POST /admin/users/delete/:id (behind isAdmin): select the target row,
404 when absent, 403 when the target is an admin, else delete it. -/
def postAdminUserDelete (db : DB) (u : Identity) (idStr : String) :
    HandlerResult :=
  match pgIntCast idStr with
  | none => ⟨.sendText 500 "Server error", db, some u, []⟩
  | some n =>
    match db.users.filter (fun x => x.id = n) with
    | [] => ⟨.sendText 404 "User not found", db, some u, []⟩
    | target :: _ =>
      if target.role = "admin" then
        ⟨.sendText 403 "Cannot delete another admin", db, some u, []⟩
      else
        ⟨.redirect "/admin/users",
         { db with users := db.users.filter (fun x => ¬ x.id = n) },
         some u, []⟩

/-- POST /admin/users/promote/:id (behind isAdmin): unconditional role
flip to admin. -/
def postAdminUserPromote (db : DB) (u : Identity) (idStr : String) :
    HandlerResult :=
  match pgIntCast idStr with
  | none => ⟨.sendText 500 "Server error", db, some u, []⟩
  | some n =>
    ⟨.redirect "/admin/users",
     { db with users := db.users.map (fun x =>
        if x.id = n then { x with role := "admin" } else x) },
     some u, []⟩

/-- POST /admin/users/demote/:id (behind isAdmin): unconditional role
flip to user. -/
def postAdminUserDemote (db : DB) (u : Identity) (idStr : String) :
    HandlerResult :=
  match pgIntCast idStr with
  | none => ⟨.sendText 500 "Server error", db, some u, []⟩
  | some n =>
    ⟨.redirect "/admin/users",
     { db with users := db.users.map (fun x =>
        if x.id = n then { x with role := "user" } else x) },
     some u, []⟩

/-- POST /admin/users/reset-password/:id (behind isAdmin): set the target
password hash to the hash of the fixed default (hashed is the bcrypt
result for the constant 123456). -/
def postAdminUserReset (db : DB) (u : Identity) (idStr hashed : String) :
    HandlerResult :=
  match pgIntCast idStr with
  | none => ⟨.sendText 500 "Server error", db, some u, []⟩
  | some n =>
    ⟨.redirect "/admin/users",
     { db with users := db.users.map (fun x =>
        if x.id = n then { x with password := hashed } else x) },
     some u, []⟩

/-- GET /admin/blogs (behind isAdmin): all blogs with author, newest
first. -/
def getAdminBlogs (db : DB) (u : Identity) : HandlerResult :=
  let rows := sortByKeyDesc (fun r => r.blog.created_at) (joinBlogsUsers db)
  ⟨.render 200 "admin/admin-blogs" (.adminBlogs (some u) rows),
   db, some u, []⟩

/-- POST /admin/blogs/delete/:id (behind isAdmin): unconditional delete,
any blog, any owner. -/
def postAdminBlogDelete (db : DB) (u : Identity) (idStr : String) :
    HandlerResult :=
  match pgIntCast idStr with
  | none => ⟨.sendText 500 "Server error", db, some u, []⟩
  | some n =>
    ⟨.redirect "/admin/blogs",
     { db with blogs := db.blogs.filter (fun b => ¬ b.id = n) },
     some u, []⟩

/-- POST /admin/blogs/approve/:id (behind isAdmin): set status to
approved on the matching row. -/
def postAdminBlogApprove (db : DB) (u : Identity) (idStr : String) :
    HandlerResult :=
  match pgIntCast idStr with
  | none => ⟨.sendText 500 "Server error", db, some u, []⟩
  | some n =>
    ⟨.redirect "/admin/blogs",
     { db with blogs := db.blogs.map (fun b =>
        if b.id = n then { b with status := "approved" } else b) },
     some u, []⟩

/-- GET /admin/blogs/edit/:id (behind isAdmin): select the blog, 404 when
absent, else render the form. -/
def getAdminBlogEdit (db : DB) (u : Identity) (idStr : String) :
    HandlerResult :=
  match pgIntCast idStr with
  | none => ⟨.sendText 500 "Server error", db, some u, []⟩
  | some n =>
    match db.blogs.filter (fun b => b.id = n) with
    | [] => ⟨.sendText 404 "Blog not found", db, some u, []⟩
    | b :: _ =>
      ⟨.render 200 "admin/admin-edit-blog" (.adminEditBlog (some u) b),
       db, some u, []⟩

/-- POST /admin/blogs/edit/:id (behind isAdmin): unconditional update of
title and content, any blog, any owner, no emptiness validation. -/
def postAdminBlogEdit (db : DB) (u : Identity)
    (idStr title content : String) : HandlerResult :=
  match pgIntCast idStr with
  | none => ⟨.sendText 500 "Server error", db, some u, []⟩
  | some n =>
    ⟨.redirect "/admin/blogs",
     { db with blogs := db.blogs.map (fun b =>
        if b.id = n then { b with title := title, content := content }
        else b) },
     some u, []⟩

/-- GET /admin/contact-messages (behind isAdmin): duplicate of the
/admin/messages handler, embedded from its own source lines. -/
def getAdminContactMessages (db : DB) (u : Identity) : HandlerResult :=
  let rows := sortByKeyDesc ContactMessage.created_at db.contact_messages
  ⟨.render 200 "admin/admin-messages" (.adminMessages (some u) rows),
   db, some u, []⟩

/-! ## The full route table -/

/-- Every route of the application, with its request body fields and the
environment-supplied values (bcrypt digests, generated ids, timestamps,
insert success) as constructor arguments. -/
inductive Route where
  | getHome
  | getSignup
  | postSignup (username email password hashed : String) (freshId : Int)
  | getLogin
  | postLogin (email password : String)
  | getLogout
  | getForgotPassword
  | postForgotPassword (email newPassword hashed : String)
  | postContact (name email message : String) (freshId now : Int)
      (insertOk : Bool)
  | getDashboard
  | getCreate
  | postCreate (title content : String) (freshId now : Int)
  | getViewBlog (idStr : String)
  | getEditBlog (idStr : String)
  | postEditBlog (idStr title content : String)
  | postDeleteBlog (idStr : String)
  | getContactPage
  | getAbout
  | getAdminLogin
  | postAdminLogin (email password : String)
  | getAdminLogout
  | getAdminDashboard
  | getAdminMessages
  | getAdminUsers
  | postAdminUserDelete (idStr : String)
  | postAdminUserPromote (idStr : String)
  | postAdminUserDemote (idStr : String)
  | postAdminUserReset (idStr hashed : String)
  | getAdminBlogs
  | postAdminBlogDelete (idStr : String)
  | postAdminBlogApprove (idStr : String)
  | getAdminBlogEdit (idStr : String)
  | postAdminBlogEdit (idStr title content : String)
  | getAdminContactMessages
deriving Repr, DecidableEq

/-- Dispatch a request to its handler, composing the authorization gate
the source composes in front of it. -/
def handle (verify : String → String → Bool) (r : Route) (db : DB)
    (sess : Option Identity) : HandlerResult :=
  match r with
  | .getHome => getHome db sess
  | .getSignup => getSignup db sess
  | .postSignup un em pw h fid => postSignup db sess un em pw h fid
  | .getLogin => getLogin db sess
  | .postLogin em pw => postLogin db sess em pw verify
  | .getLogout => getLogout db sess
  | .getForgotPassword => getForgotPassword db sess
  | .postForgotPassword em np h => postForgotPassword db sess em np h
  | .postContact n e m fid now ok => postContact db sess n e m fid now ok
  | .getDashboard => checkAuth db sess (fun u => getDashboard db u)
  | .getCreate => checkAuth db sess (fun u => getCreate db u)
  | .postCreate t c fid now =>
    checkAuth db sess (fun u => postCreate db u t c fid now)
  | .getViewBlog idStr => getViewBlog db sess idStr
  | .getEditBlog idStr => checkAuth db sess (fun u => getEditBlog db u idStr)
  | .postEditBlog idStr t c =>
    checkAuth db sess (fun u => postEditBlog db u idStr t c)
  | .postDeleteBlog idStr =>
    checkAuth db sess (fun u => postDeleteBlog db u idStr)
  | .getContactPage => getContactPage db sess
  | .getAbout => getAbout db sess
  | .getAdminLogin => getAdminLogin db sess
  | .postAdminLogin em pw => postAdminLogin db sess em pw verify
  | .getAdminLogout => isAdmin db sess (fun u => getAdminLogout db u)
  | .getAdminDashboard => isAdmin db sess (fun u => getAdminDashboard db u)
  | .getAdminMessages => isAdmin db sess (fun u => getAdminMessages db u)
  | .getAdminUsers => isAdmin db sess (fun u => getAdminUsers db u)
  | .postAdminUserDelete idStr =>
    isAdmin db sess (fun u => postAdminUserDelete db u idStr)
  | .postAdminUserPromote idStr =>
    isAdmin db sess (fun u => postAdminUserPromote db u idStr)
  | .postAdminUserDemote idStr =>
    isAdmin db sess (fun u => postAdminUserDemote db u idStr)
  | .postAdminUserReset idStr h =>
    isAdmin db sess (fun u => postAdminUserReset db u idStr h)
  | .getAdminBlogs => isAdmin db sess (fun u => getAdminBlogs db u)
  | .postAdminBlogDelete idStr =>
    isAdmin db sess (fun u => postAdminBlogDelete db u idStr)
  | .postAdminBlogApprove idStr =>
    isAdmin db sess (fun u => postAdminBlogApprove db u idStr)
  | .getAdminBlogEdit idStr =>
    isAdmin db sess (fun u => getAdminBlogEdit db u idStr)
  | .postAdminBlogEdit idStr t c =>
    isAdmin db sess (fun u => postAdminBlogEdit db u idStr t c)
  | .getAdminContactMessages =>
    isAdmin db sess (fun u => getAdminContactMessages db u)

/-! ## Helper lemmas about the parseInt model -/

theorem decDigit_isSome_bounds {c : Char} (h : (decDigit c).isSome = true) :
    48 ≤ c.toNat ∧ c.toNat ≤ 57 := by
  rw [decDigit] at h
  split at h
  · next hc => simpa using hc
  · simp at h

theorem digit_char_facts {c : Char} (h : 48 ≤ c.toNat ∧ c.toNat ≤ 57) :
    isJsSpace c = false ∧ c ≠ '-' ∧ c ≠ '+' ∧ c ≠ 'x' ∧ c ≠ 'X' := by
  obtain ⟨h1, h2⟩ := h
  refine ⟨?_, ?_, ?_, ?_, ?_⟩
  · simp only [isJsSpace, Bool.or_eq_false_iff, decide_eq_false_iff_not]
    refine ⟨⟨⟨⟨⟨?_, ?_⟩, ?_⟩, ?_⟩, ?_⟩, ?_⟩ <;>
      (rintro rfl; revert h1 h2; decide)
  all_goals (rintro rfl; revert h1 h2; decide)

theorem decDigit_decDigitChar {d : Nat} (hd : d < 10) :
    (decDigit (decDigitChar d)).isSome = true := by
  interval_cases d <;> decide

theorem natToDecCharsAux_spec (fuel : Nat) :
    ∀ n, n < fuel →
      natToDecCharsAux fuel n ≠ [] ∧
        ∀ c ∈ natToDecCharsAux fuel n, (decDigit c).isSome = true := by
  induction fuel with
  | zero => intro n h; omega
  | succ f ih =>
    intro n _h
    rw [natToDecCharsAux]
    split
    · next h =>
      refine ⟨by simp, ?_⟩
      intro c hc
      rw [List.mem_singleton] at hc
      subst hc
      exact decDigit_decDigitChar h
    · next h =>
      have hdiv : n / 10 < n := Nat.div_lt_self (by omega) (by omega)
      refine ⟨by simp, ?_⟩
      intro c hc
      rcases List.mem_append.mp hc with hc | hc
      · exact (ih (n / 10) (by omega)).2 c hc
      · rw [List.mem_singleton] at hc
        subst hc
        exact decDigit_decDigitChar (Nat.mod_lt _ (by omega))

theorem natToDecChars_spec (n : Nat) :
    natToDecChars n ≠ [] ∧
      ∀ c ∈ natToDecChars n, (decDigit c).isSome = true :=
  natToDecCharsAux_spec (n + 1) n (by omega)

theorem string_mk_data (cs : List Char) : (String.mk cs).data = cs := rfl

theorem parseIntStr_digits_isSome {cs : List Char} (hne : cs ≠ [])
    (hdig : ∀ c ∈ cs, (decDigit c).isSome = true) :
    (parseIntStr (String.mk cs)).isSome = true := by
  cases cs with
  | nil => exact absurd rfl hne
  | cons c cs =>
    have hc := digit_char_facts
      (decDigit_isSome_bounds (hdig c (List.mem_cons_self c cs)))
    have hsome : ∃ d, decDigit c = some d := by
      cases hd : decDigit c with
      | none =>
        have := hdig c (List.mem_cons_self c cs)
        rw [hd] at this
        simp at this
      | some d => exact ⟨d, rfl⟩
    obtain ⟨d, hd⟩ := hsome
    cases cs with
    | nil =>
      simp [parseIntStr, string_mk_data, List.dropWhile_cons, hc.1,
        splitSign, hc.2.1, hc.2.2.1, digitRunVal, hd]
    | cons c1 rest =>
      have hc1 := digit_char_facts
        (decDigit_isSome_bounds
          (hdig c1 (List.mem_cons_of_mem c (List.mem_cons_self c1 rest))))
      simp [parseIntStr, string_mk_data, List.dropWhile_cons, hc.1,
        splitSign, hc.2.1, hc.2.2.1, hc1.2.2.2.1, hc1.2.2.2.2,
        digitRunVal, hd]

theorem parseIntStr_neg_digits_isSome {cs : List Char} (hne : cs ≠ [])
    (hdig : ∀ c ∈ cs, (decDigit c).isSome = true) :
    (parseIntStr (String.mk ('-' :: cs))).isSome = true := by
  cases cs with
  | nil => exact absurd rfl hne
  | cons c cs =>
    have hc := digit_char_facts
      (decDigit_isSome_bounds (hdig c (List.mem_cons_self c cs)))
    have hsome : ∃ d, decDigit c = some d := by
      cases hd : decDigit c with
      | none =>
        have := hdig c (List.mem_cons_self c cs)
        rw [hd] at this
        simp at this
      | some d => exact ⟨d, rfl⟩
    obtain ⟨d, hd⟩ := hsome
    have hsp : isJsSpace '-' = false := by decide
    cases cs with
    | nil =>
      simp [parseIntStr, string_mk_data, List.dropWhile_cons, hsp, hc.1,
        splitSign, digitRunVal, hd]
    | cons c1 rest =>
      have hc1 := digit_char_facts
        (decDigit_isSome_bounds
          (hdig c1 (List.mem_cons_of_mem c (List.mem_cons_self c1 rest))))
      simp [parseIntStr, string_mk_data, List.dropWhile_cons, hsp, hc.1,
        splitSign, hc1.2.2.2.1, hc1.2.2.2.2, digitRunVal, hd]

/-- The route-level id check accepts every actual integer: validateId of
the string rendering of an integer succeeds. -/
theorem validateIdNum_some (n : Int) : validateIdNum (some n) = true := by
  rw [validateIdNum, validateId, jsNumToString]
  split
  · have h := natToDecChars_spec (-n).toNat
    simpa using parseIntStr_neg_digits_isSome h.1 h.2
  · have h := natToDecChars_spec n.toNat
    simpa using parseIntStr_digits_isSome h.1 h.2

/-- The route-level id check rejects NaN. -/
theorem validateIdNum_none : validateIdNum none = false := by decide

theorem validateIdNum_eq_isSome (x : JsNum) : validateIdNum x = x.isSome := by
  cases x with
  | none => exact validateIdNum_none
  | some n => simp [validateIdNum_some]

/-! ## Helper lemmas about tables with unique keys -/

theorem filter_key_eq_singleton {α : Type} (key : α → Int) {l : List α}
    (hN : (l.map key).Nodup) {a : α} (ha : a ∈ l) {n : Int}
    (hka : key a = n) :
    l.filter (fun x => decide (key x = n)) = [a] := by
  subst hka
  induction l with
  | nil => cases ha
  | cons x xs ih =>
    rw [List.map_cons, List.nodup_cons] at hN
    rcases List.mem_cons.mp ha with rfl | hmem
    · rw [List.filter_cons_of_pos (by simp)]
      have hnil : xs.filter (fun b => decide (key b = key a)) = [] := by
        rw [List.filter_eq_nil_iff]
        intro b hb
        simp only [decide_eq_true_eq]
        intro hkb
        exact hN.1 (hkb ▸ List.mem_map_of_mem key hb)
      rw [hnil]
    · have hkx : ¬ key x = key a := by
        intro hkx
        exact hN.1 (hkx ▸ List.mem_map_of_mem key hmem)
      rw [List.filter_cons_of_neg (by simpa using hkx), ih hN.2 hmem]

theorem map_eq_self_of_fixed {α : Type} {f : α → α} {l : List α}
    (h : ∀ x ∈ l, f x = x) : l.map f = l := by
  rw [List.map_congr_left h, List.map_id']

/-! ## Concrete fixtures for witnesses and counterexamples -/

/-- A bcrypt digest value; opaque to the model. -/
def aliceHash : String := "DIGEST-alice"

def alice : User := ⟨1, "alice", "alice@example.com", aliceHash, "user"⟩

def bob : User := ⟨2, "bob", "bob@example.com", "DIGEST-bob", "user"⟩

def rootAdmin : User := ⟨3, "root", "root@example.com", "DIGEST-root", "admin"⟩

/-- A blog owned by bob, with id 12. -/
def bobBlog : Blog := ⟨12, 2, "Bobs post", "Some content", "pending", 5⟩

def demoDB : DB := ⟨[alice, bob, rootAdmin], [bobBlog], []⟩

def aliceIdent : Identity := ⟨1, "alice", none, none⟩

def bobIdent : Identity := ⟨2, "bob", none, none⟩

def adminIdent : Identity :=
  ⟨3, "root", some "root@example.com", some "admin"⟩

/-- A bcrypt comparison that rejects every pair. -/
def verifyNever : String → String → Bool := fun _ _ => false

/-- A bcrypt comparison under which letmein matches the alice digest. -/
def verifyDemo : String → String → Bool :=
  fun p h => p = "letmein" && h = aliceHash

/-- A bcrypt comparison under which rootpw matches the root digest. -/
def verifyRoot : String → String → Bool :=
  fun p h => p = "rootpw" && h = "DIGEST-root"

/-- A concrete guarded handler, used to instantiate gate theorems. -/
def demoHandler : Identity → HandlerResult := fun u => getDashboard demoDB u

/-! ## C1: id validation -/

/-- Modelled from the claim text for comparison with validateId: a
base-10 integer string is an optional sign followed by one or more
decimal digits and nothing else. -/
def isBase10IntegerString (s : String) : Bool :=
  let cs :=
    match s.data with
    | '-' :: rest => rest
    | '+' :: rest => rest
    | cs => cs
  !cs.isEmpty && cs.all (fun c => '0' ≤ c && c ≤ '9')

/-- C1 counterexample: 12abc is not a base-10 integer string, yet
validateId accepts it, and GET /view/12abc does not respond 400: on a
database holding blog 12 the query is issued and the blog is rendered. -/
theorem C1_counterexample :
    isBase10IntegerString "12abc" = false ∧
    validateId "12abc" = true ∧
    getViewBlog demoDB none "12abc" =
      ⟨.render 200 "viewblog"
        (.oneBlogJoined ⟨bobBlog, "bob"⟩ "Bobs post"), demoDB, none, []⟩ := by
  decide

/-- C1 amended: only GET /view/:id, GET /edit/:id and POST /delete/:id
validate the id, and the check accepts any string whose parseInt yields
an integer; for these three routes an id with no parseable integer
prefix (parseInt gives NaN) is answered 400 before any query: the result
is the same for every database state and leaves it unchanged. -/
theorem C1_malformed_id_gives_400 (db : DB) (sess : Option Identity)
    (u : Identity) (idStr : String) (h : parseIntStr idStr = none) :
    validateId idStr = false ∧
    getViewBlog db sess idStr =
      ⟨.render 400 "error" (.message "Invalid blog ID"), db, sess, []⟩ ∧
    getEditBlog db u idStr =
      ⟨.render 400 "error" (.message "Invalid blog ID"), db, some u, []⟩ ∧
    postDeleteBlog db u idStr =
      ⟨.render 400 "error" (.message "Invalid blog ID"), db, some u, []⟩ := by
  refine ⟨by simp [validateId, h], ?_, ?_, ?_⟩ <;>
    simp [getViewBlog, getEditBlog, postDeleteBlog, h, validateIdNum_none]

/-- C1 witness: the amended theorem applied to the id string abc. -/
theorem C1_malformed_id_gives_400_witness :
    validateId "abc" = false ∧
    getViewBlog demoDB none "abc" =
      ⟨.render 400 "error" (.message "Invalid blog ID"), demoDB, none, []⟩ ∧
    getEditBlog demoDB aliceIdent "abc" =
      ⟨.render 400 "error" (.message "Invalid blog ID"), demoDB,
        some aliceIdent, []⟩ ∧
    postDeleteBlog demoDB aliceIdent "abc" =
      ⟨.render 400 "error" (.message "Invalid blog ID"), demoDB,
        some aliceIdent, []⟩ :=
  C1_malformed_id_gives_400 demoDB none aliceIdent "abc" (by decide)

/-! ## C2: POST /edit/:id -/

/-- C2 counterexample: POST /edit/abc is never answered 400: with an
empty title the handler redirects back to the form (NaN interpolated
into the path), and with non-empty fields the query parameter is
rejected and a 500 error page results. -/
theorem C2_counterexample :
    parseIntStr "abc" = none ∧
    (postEditBlog demoDB bobIdent "abc" "" "some content").response =
      .redirect "/edit/NaN" ∧
    (postEditBlog demoDB bobIdent "abc" "T" "C").response.statusCode
      = 500 := by
  decide

/-- C2 amended: the POST /edit/:id handler performs no id validation, so
a malformed id never yields 400 (empty fields redirect back to the form,
non-empty fields surface the rejected query parameter as a 500); when the
id parses and both fields are non-empty, the update query runs restricted
to rows owned by the session identity, a success flash is enqueued and
the response redirects to /dashboard. -/
theorem C2_post_edit_behavior (db : DB) (u : Identity)
    (idStr title content : String) :
    (parseIntStr idStr = none →
      (postEditBlog db u idStr title content).response.statusCode ≠ 400) ∧
    (∀ n : Int, parseIntStr idStr = some n → title ≠ "" → content ≠ "" →
      postEditBlog db u idStr title content =
        ⟨.redirect "/dashboard",
         { db with blogs := db.blogs.map (fun b =>
            if b.id = n ∧ b.user_id = u.id then
              { b with title := title, content := content }
            else b) },
         some u, [("success", "Blog updated successfully")]⟩) := by
  constructor
  · intro h
    simp only [postEditBlog, h]
    split
    · simp [Response.statusCode]
    · simp [Response.statusCode]
  · intro n h ht hc
    simp [postEditBlog, h, ht, hc]

/-- C2 witness: the amended theorem at concrete inputs: the malformed id
abc is not answered 400, and a well-formed owned edit updates the row. -/
theorem C2_post_edit_behavior_witness :
    (postEditBlog demoDB bobIdent "abc" "" "x").response.statusCode ≠ 400 ∧
    postEditBlog demoDB bobIdent "12" "New title" "New body" =
      ⟨.redirect "/dashboard",
       { demoDB with blogs := demoDB.blogs.map (fun b =>
          if b.id = 12 ∧ b.user_id = bobIdent.id then
            { b with title := "New title", content := "New body" }
          else b) },
       some bobIdent, [("success", "Blog updated successfully")]⟩ :=
  ⟨(C2_post_edit_behavior demoDB bobIdent "abc" "" "x").1 (by decide),
   (C2_post_edit_behavior demoDB bobIdent "12" "New title" "New body").2
     12 (by decide) (by decide) (by decide)⟩

/-! ## C3: POST /contact -/

/-- C3: POST /contact always answers status 200 with a JSON body; both
validation failure and insert failure answer success false with an error
string; only a successful insert answers success true with the message. -/
theorem C3_contact_always_2xx_json (db : DB) (sess : Option Identity)
    (name email message : String) (freshId now : Int) (insertOk : Bool) :
    (∃ body, (postContact db sess name email message freshId now
        insertOk).response = .json 200 body) ∧
    ((name = "" ∨ email = "" ∨ message = "") →
      (postContact db sess name email message freshId now insertOk).response
        = .json 200 ⟨false, none, some "All fields are required"⟩) ∧
    (name ≠ "" → email ≠ "" → message ≠ "" → insertOk = false →
      (postContact db sess name email message freshId now insertOk).response
        = .json 200 ⟨false, none, some "Server error while sending message"⟩) ∧
    (name ≠ "" → email ≠ "" → message ≠ "" → insertOk = true →
      (postContact db sess name email message freshId now insertOk).response
        = .json 200 ⟨true, some "Message sent successfully!", none⟩) := by
  refine ⟨?_, ?_, ?_, ?_⟩
  · simp only [postContact]
    split
    · exact ⟨_, rfl⟩
    · split
      · exact ⟨_, rfl⟩
      · exact ⟨_, rfl⟩
  · intro h
    rcases h with h | h | h <;> simp [postContact, h]
  · intro h1 h2 h3 h4
    simp [postContact, h1, h2, h3, h4]
  · intro h1 h2 h3 h4
    simp [postContact, h1, h2, h3, h4]

/-- C3 witness: the theorem at concrete inputs covering the three
outcomes. -/
theorem C3_contact_always_2xx_json_witness :
    (∃ body, (postContact demoDB none "" "e" "m" 7 9 true).response =
      .json 200 body) ∧
    (postContact demoDB none "" "e" "m" 7 9 true).response =
      .json 200 ⟨false, none, some "All fields are required"⟩ ∧
    (postContact demoDB none "n" "e" "m" 7 9 false).response =
      .json 200 ⟨false, none, some "Server error while sending message"⟩ ∧
    (postContact demoDB none "n" "e" "m" 7 9 true).response =
      .json 200 ⟨true, some "Message sent successfully!", none⟩ :=
  ⟨(C3_contact_always_2xx_json demoDB none "" "e" "m" 7 9 true).1,
   (C3_contact_always_2xx_json demoDB none "" "e" "m" 7 9 true).2.1
     (Or.inl rfl),
   (C3_contact_always_2xx_json demoDB none "n" "e" "m" 7 9 false).2.2.1
     (by decide) (by decide) (by decide) rfl,
   (C3_contact_always_2xx_json demoDB none "n" "e" "m" 7 9 true).2.2.2
     (by decide) (by decide) (by decide) rfl⟩

/-! ## C4: admin approve is idempotent -/

/-- C4: approving a blog id answers the same redirect with no error both
times, every row with that id has status approved after the first and the
second application, the second application changes nothing, and applying
it to an already-approved blog changes nothing. -/
theorem C4_approve_idempotent (db : DB) (u1 u2 : Identity)
    (idStr : String) (n : Int) (h : pgIntCast idStr = some n) :
    (postAdminBlogApprove db u1 idStr).response = .redirect "/admin/blogs" ∧
    (postAdminBlogApprove (postAdminBlogApprove db u1 idStr).db u2
        idStr).response = .redirect "/admin/blogs" ∧
    (∀ b ∈ (postAdminBlogApprove db u1 idStr).db.blogs,
      b.id = n → b.status = "approved") ∧
    (postAdminBlogApprove (postAdminBlogApprove db u1 idStr).db u2
        idStr).db = (postAdminBlogApprove db u1 idStr).db ∧
    ((∀ b ∈ db.blogs, b.id = n → b.status = "approved") →
      (postAdminBlogApprove db u1 idStr).db = db) := by
  refine ⟨?_, ?_, ?_, ?_, ?_⟩
  · simp [postAdminBlogApprove, h]
  · simp [postAdminBlogApprove, h]
  · intro b hb hbn
    simp only [postAdminBlogApprove, h] at hb
    rcases List.mem_map.mp hb with ⟨b0, _hb0, rfl⟩
    by_cases h0 : b0.id = n
    · simp [h0]
    · simp only [if_neg h0] at hbn ⊢
      exact absurd hbn h0
  · simp only [postAdminBlogApprove, h]
    congr 1
    rw [List.map_map]
    apply List.map_congr_left
    intro b _
    by_cases h0 : b.id = n <;> simp [Function.comp, h0]
  · intro hall
    simp only [postAdminBlogApprove, h]
    have hmap : db.blogs.map (fun b =>
        if b.id = n then { b with status := "approved" } else b) =
        db.blogs := by
      apply map_eq_self_of_fixed
      intro b hb
      by_cases h0 : b.id = n
      · have hst := hall b hb h0
        cases b
        simp_all
      · simp [h0]
    rw [hmap]

/-- C4 witness: the theorem applied to blog 12 of the demo database. -/
theorem C4_approve_idempotent_witness :
    (postAdminBlogApprove demoDB adminIdent "12").response =
      .redirect "/admin/blogs" ∧
    (postAdminBlogApprove (postAdminBlogApprove demoDB adminIdent "12").db
        adminIdent "12").db = (postAdminBlogApprove demoDB adminIdent "12").db :=
  ⟨(C4_approve_idempotent demoDB adminIdent adminIdent "12" 12 (by decide)).1,
   (C4_approve_idempotent demoDB adminIdent adminIdent "12" 12
     (by decide)).2.2.2.1⟩

/-! ## C5: login with wrong password -/

/-- C5 counterexample: an attempt whose email matches an existing user
and whose (empty) password fails hash verification is answered with the
all-fields flash, not the Incorrect password flash, because the emptiness
check runs before verification. -/
theorem C5_counterexample :
    alice ∈ demoDB.users ∧
    alice.email = "alice@example.com" ∧
    verifyNever "" alice.password = false ∧
    (postLogin demoDB none "alice@example.com" "" verifyNever).flashes =
      [("error", "All fields are required")] := by
  decide

/-- C5 amended: for every login attempt with non-empty email and password
whose email matches an existing user and whose password fails hash
verification, the response is a redirect to /login with an Incorrect
password error flash, the session is unchanged and so is the database. -/
theorem C5_wrong_password_flash (db : DB) (sess : Option Identity)
    (email password : String) (verify : String → String → Bool)
    (u : User) (rest : List User)
    (he : email ≠ "") (hp : password ≠ "")
    (hfind : db.users.filter (fun x => decide (x.email = email)) = u :: rest)
    (hv : verify password u.password = false) :
    postLogin db sess email password verify =
      ⟨.redirect "/login", db, sess, [("error", "Incorrect password")]⟩ := by
  simp [postLogin, he, hp, hfind, hv]

/-- C5 witness: the amended theorem at a wrong non-empty password for
alice. -/
theorem C5_wrong_password_flash_witness :
    postLogin demoDB none "alice@example.com" "wrong" verifyNever =
      ⟨.redirect "/login", demoDB, none, [("error", "Incorrect password")]⟩ :=
  C5_wrong_password_flash demoDB none "alice@example.com" "wrong"
    verifyNever alice [] (by decide) (by decide) (by decide) (by decide)

/-! ## C6: deleting a foreign blog is a silent no-op -/

/-- C6: POST /delete/:id on a blog owned by another user deletes no row
(the ownership restriction sits in the query predicate itself), yet still
enqueues the success flash and redirects to /dashboard exactly as a
successful delete would. -/
theorem C6_delete_foreign_silent_noop (db : DB) (A : Identity)
    (idStr : String) (n : Int) (b : Blog)
    (hid : parseIntStr idStr = some n)
    (hN : (db.blogs.map Blog.id).Nodup)
    (hb : b ∈ db.blogs) (hbid : b.id = n) (hown : b.user_id ≠ A.id) :
    postDeleteBlog db A idStr =
      ⟨.redirect "/dashboard", db, some A,
       [("success", "Blog deleted successfully")]⟩ := by
  simp only [postDeleteBlog, hid, validateIdNum_some, not_true,
    Bool.true_eq_false, decide_not, ite_false, if_false]
  have hkeep : ∀ x ∈ db.blogs,
      (!decide (some x.id = some n ∧ x.user_id = A.id)) = true := by
    intro x hx
    simp only [Bool.not_eq_true', decide_eq_false_iff_not, Option.some_inj]
    rintro ⟨hxid, hxown⟩
    have hxb : x = b :=
      List.inj_on_of_nodup_map hN hx hb (by rw [hxid, hbid])
    rw [hxb] at hxown
    exact hown hxown
  rw [List.filter_eq_self.mpr hkeep]

/-- C6 witness: alice deleting blog 12 (owned by bob) leaves the demo
database unchanged and still reports success. -/
theorem C6_delete_foreign_silent_noop_witness :
    postDeleteBlog demoDB aliceIdent "12" =
      ⟨.redirect "/dashboard", demoDB, some aliceIdent,
       [("success", "Blog deleted successfully")]⟩ :=
  C6_delete_foreign_silent_noop demoDB aliceIdent "12" 12 bobBlog
    (by decide) (by decide) (by decide) (by decide) (by decide)

/-! ## C7: admins are never deleted -/

/-- Every user row with role admin (tracked by id) survives the
transition from db to dbNew. -/
def keepsAdminRows (db dbNew : DB) : Prop :=
  ∀ u ∈ db.users, u.role = "admin" → u.id ∈ dbNew.users.map User.id

theorem keepsAdminRows_of_users_eq {db dbNew : DB}
    (h : dbNew.users = db.users) : keepsAdminRows db dbNew := by
  intro u hu _
  rw [h]
  exact List.mem_map_of_mem User.id hu

theorem keepsAdminRows_of_map {db dbNew : DB} {f : User → User}
    (hf : ∀ x, (f x).id = x.id) (h : dbNew.users = db.users.map f) :
    keepsAdminRows db dbNew := by
  intro u hu _
  rw [h]
  exact List.mem_map.mpr ⟨f u, List.mem_map_of_mem f hu, hf u⟩

theorem keepsAdminRows_of_append {db dbNew : DB} {extra : List User}
    (h : dbNew.users = db.users ++ extra) : keepsAdminRows db dbNew := by
  intro u hu _
  rw [h]
  exact List.mem_map_of_mem User.id (List.mem_append_left _ hu)

theorem keeps_checkAuth {db : DB} {sess : Option Identity}
    {h : Identity → HandlerResult}
    (hh : ∀ u, keepsAdminRows db (h u).db) :
    keepsAdminRows db (checkAuth db sess h).db := by
  cases sess with
  | none => exact keepsAdminRows_of_users_eq rfl
  | some u => exact hh u

theorem keeps_isAdmin {db : DB} {sess : Option Identity}
    {h : Identity → HandlerResult}
    (hh : ∀ u, keepsAdminRows db (h u).db) :
    keepsAdminRows db (isAdmin db sess h).db := by
  cases sess with
  | none => exact keepsAdminRows_of_users_eq rfl
  | some u =>
    by_cases hr : u.role = some "admin"
    · simpa [isAdmin, hr] using hh u
    · simp only [isAdmin, if_neg hr]
      exact keepsAdminRows_of_users_eq rfl

theorem keeps_postSignup (db : DB) (sess : Option Identity)
    (un em pw h : String) (fid : Int) :
    keepsAdminRows db (postSignup db sess un em pw h fid).db := by
  unfold postSignup
  split_ifs
  · exact keepsAdminRows_of_users_eq rfl
  · exact keepsAdminRows_of_users_eq rfl
  · dsimp only
    split
    · exact keepsAdminRows_of_users_eq rfl
    · exact keepsAdminRows_of_append rfl

theorem keeps_postLogin (db : DB) (sess : Option Identity)
    (em pw : String) (v : String → String → Bool) :
    keepsAdminRows db (postLogin db sess em pw v).db := by
  unfold postLogin
  split
  · exact keepsAdminRows_of_users_eq rfl
  · split
    · exact keepsAdminRows_of_users_eq rfl
    · split <;> exact keepsAdminRows_of_users_eq rfl

theorem keeps_postForgotPassword (db : DB) (sess : Option Identity)
    (em np h : String) :
    keepsAdminRows db (postForgotPassword db sess em np h).db := by
  unfold postForgotPassword
  split_ifs
  · exact keepsAdminRows_of_users_eq rfl
  · exact keepsAdminRows_of_users_eq rfl
  · refine keepsAdminRows_of_map ?_ rfl
    intro x
    by_cases hx : x.email = em <;> simp [hx]

theorem keeps_postContact (db : DB) (sess : Option Identity)
    (n e m : String) (fid now : Int) (ok : Bool) :
    keepsAdminRows db (postContact db sess n e m fid now ok).db := by
  unfold postContact
  split_ifs <;> exact keepsAdminRows_of_users_eq rfl

theorem keeps_postAdminLogin (db : DB) (sess : Option Identity)
    (em pw : String) (v : String → String → Bool) :
    keepsAdminRows db (postAdminLogin db sess em pw v).db := by
  unfold postAdminLogin
  split
  · exact keepsAdminRows_of_users_eq rfl
  · split <;> exact keepsAdminRows_of_users_eq rfl

theorem keeps_postAdminUserDelete (db : DB) (u : Identity) (idStr : String)
    (hN : (db.users.map User.id).Nodup) :
    keepsAdminRows db (postAdminUserDelete db u idStr).db := by
  unfold postAdminUserDelete
  split
  · exact keepsAdminRows_of_users_eq rfl
  · next n _ =>
    split
    · exact keepsAdminRows_of_users_eq rfl
    · next target rest hfind =>
      split
      · exact keepsAdminRows_of_users_eq rfl
      · next hrole =>
        intro w hw hwadmin
        have htmem : target ∈ db.users ∧ target.id = n := by
          have hmem : target ∈ db.users.filter (fun x => decide (x.id = n)) := by
            rw [hfind]
            exact List.mem_cons_self target rest
          refine ⟨List.mem_of_mem_filter hmem, ?_⟩
          have := List.of_mem_filter hmem
          simpa using this
        have hwn : ¬ w.id = n := by
          intro hwn
          have hweq : w = target :=
            List.inj_on_of_nodup_map hN hw htmem.1 (by rw [hwn, htmem.2])
          rw [hweq] at hwadmin
          exact hrole hwadmin
        refine List.mem_map.mpr ⟨w, ?_, rfl⟩
        exact List.mem_filter.mpr ⟨hw, by simpa using hwn⟩

theorem keeps_userMapRoute (db : DB) (f : User → User)
    (hf : ∀ x, (f x).id = x.id) :
    keepsAdminRows db { db with users := db.users.map f } :=
  keepsAdminRows_of_map hf rfl

theorem keeps_postAdminUserPromote (db : DB) (u : Identity)
    (idStr : String) :
    keepsAdminRows db (postAdminUserPromote db u idStr).db := by
  unfold postAdminUserPromote
  split
  · exact keepsAdminRows_of_users_eq rfl
  · next n _heq =>
    refine keepsAdminRows_of_map ?_ rfl
    intro x
    by_cases hx : x.id = n <;> simp [hx]

theorem keeps_postAdminUserDemote (db : DB) (u : Identity)
    (idStr : String) :
    keepsAdminRows db (postAdminUserDemote db u idStr).db := by
  unfold postAdminUserDemote
  split
  · exact keepsAdminRows_of_users_eq rfl
  · next n _heq =>
    refine keepsAdminRows_of_map ?_ rfl
    intro x
    by_cases hx : x.id = n <;> simp [hx]

theorem keeps_postAdminUserReset (db : DB) (u : Identity)
    (idStr hashed : String) :
    keepsAdminRows db (postAdminUserReset db u idStr hashed).db := by
  unfold postAdminUserReset
  split
  · exact keepsAdminRows_of_users_eq rfl
  · next n _heq =>
    refine keepsAdminRows_of_map ?_ rfl
    intro x
    by_cases hx : x.id = n <;> simp [hx]

theorem keeps_postEditBlog (db : DB) (u : Identity)
    (idStr t c : String) :
    keepsAdminRows db (postEditBlog db u idStr t c).db := by
  unfold postEditBlog
  dsimp only
  split
  · exact keepsAdminRows_of_users_eq rfl
  · split <;> exact keepsAdminRows_of_users_eq rfl

theorem keeps_postDeleteBlog (db : DB) (u : Identity) (idStr : String) :
    keepsAdminRows db (postDeleteBlog db u idStr).db := by
  unfold postDeleteBlog
  dsimp only
  split <;> exact keepsAdminRows_of_users_eq rfl

theorem keeps_postCreate (db : DB) (u : Identity) (t c : String)
    (fid now : Int) :
    keepsAdminRows db (postCreate db u t c fid now).db := by
  unfold postCreate
  split <;> exact keepsAdminRows_of_users_eq rfl

theorem keeps_getViewBlog (db : DB) (sess : Option Identity)
    (idStr : String) :
    keepsAdminRows db (getViewBlog db sess idStr).db := by
  unfold getViewBlog
  dsimp only
  split
  · exact keepsAdminRows_of_users_eq rfl
  · split <;> exact keepsAdminRows_of_users_eq rfl

theorem keeps_getEditBlog (db : DB) (u : Identity) (idStr : String) :
    keepsAdminRows db (getEditBlog db u idStr).db := by
  unfold getEditBlog
  dsimp only
  split
  · exact keepsAdminRows_of_users_eq rfl
  · split <;> exact keepsAdminRows_of_users_eq rfl

theorem keeps_postAdminBlogDelete (db : DB) (u : Identity)
    (idStr : String) :
    keepsAdminRows db (postAdminBlogDelete db u idStr).db := by
  unfold postAdminBlogDelete
  split <;> exact keepsAdminRows_of_users_eq rfl

theorem keeps_postAdminBlogApprove (db : DB) (u : Identity)
    (idStr : String) :
    keepsAdminRows db (postAdminBlogApprove db u idStr).db := by
  unfold postAdminBlogApprove
  split <;> exact keepsAdminRows_of_users_eq rfl

theorem keeps_getAdminBlogEdit (db : DB) (u : Identity) (idStr : String) :
    keepsAdminRows db (getAdminBlogEdit db u idStr).db := by
  unfold getAdminBlogEdit
  split
  · exact keepsAdminRows_of_users_eq rfl
  · split <;> exact keepsAdminRows_of_users_eq rfl

theorem keeps_postAdminBlogEdit (db : DB) (u : Identity)
    (idStr t c : String) :
    keepsAdminRows db (postAdminBlogEdit db u idStr t c).db := by
  unfold postAdminBlogEdit
  split <;> exact keepsAdminRows_of_users_eq rfl

/-- C7: over every route of the application, a user row whose role is
admin is never removed from the users table (its id survives every
request transition), and the admin user-delete route answers 403 and
leaves the database unchanged when its target is an admin. -/
theorem C7_admins_never_deleted (verify : String → String → Bool)
    (r : Route) (db : DB) (sess : Option Identity)
    (hN : (db.users.map User.id).Nodup) :
    keepsAdminRows db (handle verify r db sess).db ∧
    (∀ (idStr : String) (n : Int) (a : Identity) (tgt : User),
      pgIntCast idStr = some n → tgt ∈ db.users → tgt.id = n →
      tgt.role = "admin" →
      postAdminUserDelete db a idStr =
        ⟨.sendText 403 "Cannot delete another admin", db, some a, []⟩) := by
  constructor
  · cases r with
    | getHome => exact keepsAdminRows_of_users_eq rfl
    | getSignup =>
      cases sess <;> exact keepsAdminRows_of_users_eq rfl
    | postSignup un em pw h fid => exact keeps_postSignup db sess un em pw h fid
    | getLogin => cases sess <;> exact keepsAdminRows_of_users_eq rfl
    | postLogin em pw => exact keeps_postLogin db sess em pw verify
    | getLogout => exact keepsAdminRows_of_users_eq rfl
    | getForgotPassword => exact keepsAdminRows_of_users_eq rfl
    | postForgotPassword em np h => exact keeps_postForgotPassword db sess em np h
    | postContact n e m fid now ok => exact keeps_postContact db sess n e m fid now ok
    | getDashboard =>
      exact keeps_checkAuth (fun u => keepsAdminRows_of_users_eq rfl)
    | getCreate =>
      exact keeps_checkAuth (fun u => keepsAdminRows_of_users_eq rfl)
    | postCreate t c fid now =>
      exact keeps_checkAuth (fun u => keeps_postCreate db u t c fid now)
    | getViewBlog idStr => exact keeps_getViewBlog db sess idStr
    | getEditBlog idStr =>
      exact keeps_checkAuth (fun u => keeps_getEditBlog db u idStr)
    | postEditBlog idStr t c =>
      exact keeps_checkAuth (fun u => keeps_postEditBlog db u idStr t c)
    | postDeleteBlog idStr =>
      exact keeps_checkAuth (fun u => keeps_postDeleteBlog db u idStr)
    | getContactPage => exact keepsAdminRows_of_users_eq rfl
    | getAbout => exact keepsAdminRows_of_users_eq rfl
    | getAdminLogin => exact keepsAdminRows_of_users_eq rfl
    | postAdminLogin em pw => exact keeps_postAdminLogin db sess em pw verify
    | getAdminLogout =>
      exact keeps_isAdmin (fun u => keepsAdminRows_of_users_eq rfl)
    | getAdminDashboard =>
      exact keeps_isAdmin (fun u => keepsAdminRows_of_users_eq rfl)
    | getAdminMessages =>
      exact keeps_isAdmin (fun u => keepsAdminRows_of_users_eq rfl)
    | getAdminUsers =>
      exact keeps_isAdmin (fun u => keepsAdminRows_of_users_eq rfl)
    | postAdminUserDelete idStr =>
      exact keeps_isAdmin (fun u => keeps_postAdminUserDelete db u idStr hN)
    | postAdminUserPromote idStr =>
      exact keeps_isAdmin (fun u => keeps_postAdminUserPromote db u idStr)
    | postAdminUserDemote idStr =>
      exact keeps_isAdmin (fun u => keeps_postAdminUserDemote db u idStr)
    | postAdminUserReset idStr h =>
      exact keeps_isAdmin (fun u => keeps_postAdminUserReset db u idStr h)
    | getAdminBlogs =>
      exact keeps_isAdmin (fun u => keepsAdminRows_of_users_eq rfl)
    | postAdminBlogDelete idStr =>
      exact keeps_isAdmin (fun u => keeps_postAdminBlogDelete db u idStr)
    | postAdminBlogApprove idStr =>
      exact keeps_isAdmin (fun u => keeps_postAdminBlogApprove db u idStr)
    | getAdminBlogEdit idStr =>
      exact keeps_isAdmin (fun u => keeps_getAdminBlogEdit db u idStr)
    | postAdminBlogEdit idStr t c =>
      exact keeps_isAdmin (fun u => keeps_postAdminBlogEdit db u idStr t c)
    | getAdminContactMessages =>
      exact keeps_isAdmin (fun u => keepsAdminRows_of_users_eq rfl)
  · intro idStr n a tgt hcast htgt htgtid hrole
    have hfilter : db.users.filter (fun x => decide (x.id = n)) = [tgt] :=
      filter_key_eq_singleton User.id hN htgt htgtid
    simp [postAdminUserDelete, hcast, hfilter, hrole]

/-- C7 witness: deleting the admin user (id 3) of the demo database is
rejected with 403 and changes nothing. -/
theorem C7_admins_never_deleted_witness :
    postAdminUserDelete demoDB adminIdent "3" =
      ⟨.sendText 403 "Cannot delete another admin", demoDB,
       some adminIdent, []⟩ :=
  (C7_admins_never_deleted verifyNever (.postAdminUserDelete "3") demoDB
    (some adminIdent) (by decide)).2 "3" 3 adminIdent rootAdmin
    (by decide) (by decide) (by decide) (by decide)

/-! ## C8: the two admin message routes are the same function -/

/-- C8: /admin/messages and /admin/contact-messages are observationally
equivalent: dispatched through the same gate, they produce identical
handler results for every database and session. -/
theorem C8_message_routes_equal (verify : String → String → Bool)
    (db : DB) (sess : Option Identity) :
    handle verify .getAdminMessages db sess =
      handle verify .getAdminContactMessages db sess := rfl

/-! ## C9: the authorization gates short-circuit -/

/-- C9: with no bound identity, checkAuth answers the /login redirect
with the error flash and the guarded handler contributes nothing (the
result is the same for every handler, and the database is unchanged);
with an absent identity or one whose role is not admin, isAdmin answers
the /admin/login redirect with no flash, likewise independently of the
guarded handler. -/
theorem C9_gates_short_circuit (db : DB) (h : Identity → HandlerResult) :
    checkAuth db none h =
      ⟨.redirect "/login", db, none,
       [("error", "Please login to continue")]⟩ ∧
    (∀ sess : Option Identity,
      (∀ u, sess = some u → ¬ u.role = some "admin") →
      isAdmin db sess h = ⟨.redirect "/admin/login", db, sess, []⟩) := by
  refine ⟨rfl, ?_⟩
  intro sess hrole
  cases sess with
  | none => rfl
  | some u => simp [isAdmin, hrole u rfl]

/-- C9 witness: the gates applied to a concrete handler, an absent
identity and a non-admin identity. -/
theorem C9_gates_short_circuit_witness :
    checkAuth demoDB none demoHandler =
      ⟨.redirect "/login", demoDB, none,
       [("error", "Please login to continue")]⟩ ∧
    isAdmin demoDB (some aliceIdent) demoHandler =
      ⟨.redirect "/admin/login", demoDB, some aliceIdent, []⟩ :=
  ⟨(C9_gates_short_circuit demoDB demoHandler).1,
   (C9_gates_short_circuit demoDB demoHandler).2 (some aliceIdent)
     (by rintro u ⟨rfl⟩; decide)⟩

/-! ## C10: public sessions carry no role -/

/-- C10: every session identity created by the public login or signup
routes (starting from no session) has no role and no email field, so the
isAdmin gate rejects it and every admin route behind the gate answers the
/admin/login redirect, for every database: admin access is reachable only
through the admin login route. -/
theorem C10_public_sessions_never_admin (db : DB)
    (email password username hashed : String) (freshId : Int)
    (verify : String → String → Bool) :
    (∀ ident : Identity,
      (postLogin db none email password verify).session = some ident →
      ident.role = none ∧ ident.email = none ∧
      ∀ (db2 : DB) (h : Identity → HandlerResult),
        isAdmin db2 (some ident) h =
          ⟨.redirect "/admin/login", db2, some ident, []⟩) ∧
    (∀ ident : Identity,
      (postSignup db none username email password hashed
        freshId).session = some ident →
      ident.role = none ∧ ident.email = none ∧
      ∀ (db2 : DB) (h : Identity → HandlerResult),
        isAdmin db2 (some ident) h =
          ⟨.redirect "/admin/login", db2, some ident, []⟩) := by
  constructor
  · intro ident hident
    unfold postLogin at hident
    split at hident
    · simp at hident
    · split at hident
      · simp at hident
      · split at hident
        · simp at hident
        · simp only [Option.some_inj] at hident
          subst hident
          exact ⟨rfl, rfl, fun db2 h => by simp [isAdmin]⟩
  · intro ident hident
    unfold postSignup at hident
    split at hident
    · simp at hident
    · split at hident
      · simp at hident
      · dsimp only at hident
        split at hident
        · simp at hident
        · simp only [Option.some_inj] at hident
          subst hident
          exact ⟨rfl, rfl, fun db2 h => by simp [isAdmin]⟩

/-- C10 witness: a database-level admin logging in through the public
login route gets a role-less session that the isAdmin gate rejects, and
likewise for a fresh signup. -/
theorem C10_public_sessions_never_admin_witness :
    (Identity.mk 3 "root" none none).role = none ∧
    isAdmin demoDB (some (Identity.mk 3 "root" none none)) demoHandler =
      ⟨.redirect "/admin/login", demoDB,
       some (Identity.mk 3 "root" none none), []⟩ ∧
    (Identity.mk 9 "carol" none none).role = none ∧
    isAdmin demoDB (some (Identity.mk 9 "carol" none none)) demoHandler =
      ⟨.redirect "/admin/login", demoDB,
       some (Identity.mk 9 "carol" none none), []⟩ := by
  have hlogin := (C10_public_sessions_never_admin demoDB
    "root@example.com" "rootpw" "carol" "DIGEST-carol" 9 verifyRoot).1
    (Identity.mk 3 "root" none none) (by decide)
  have hsignup := (C10_public_sessions_never_admin demoDB
    "carol@example.com" "secret99" "carol" "DIGEST-carol" 9 verifyRoot).2
    (Identity.mk 9 "carol" none none) (by decide)
  exact ⟨hlogin.1, hlogin.2.2 demoDB demoHandler,
    hsignup.1, hsignup.2.2 demoDB demoHandler⟩

end Typely
